import Mathlib

/-!
Shallow embedding of the request-forwarding module of the Flexisip SIP proxy
(src/module-forward.cc) and verification of its routing properties:
Max-Forwards checking, Route popping, branch computation, loop detection,
GRUU resolution, destination overrides and the send pipeline.

Sofia-SIP library primitives (URL parameter handling, MD5 digesting, token
encoding) and ModuleToolbox helpers live outside the embedded file; they are
modelled from the specification at their interface boundary, each marked with
a doc comment starting with the words Modelled from the spec.
-/

namespace ForwardModule

/-- Scheme of a sofia url_t, mirroring url_type (url_sip, url_sips, other). -/
inductive UrlType where
  | sip
  | sips
  | other
deriving DecidableEq

/-- Model of sofia url_t: scheme, user, host, port and the raw parameter
string, the latter modelled as the list of its semicolon-separated tokens
(each token is a name or a name=value text). -/
structure Url where
  url_type : UrlType
  url_user : Option String := none
  url_host : Option String := none
  url_port : Option String := none
  url_params : List String := []
deriving DecidableEq

/-- Character-list based prefix of a string, the model of copying at most n
characters into a fixed-size buffer. -/
def strTake (s : String) (n : Nat) : String := ⟨s.data.take n⟩

/-- Character-list based drop of the first n characters of a string, the
model of advancing a C string pointer. -/
def strDrop (s : String) (n : Nat) : String := ⟨s.data.drop n⟩

/-- Lowercased copy of a string, the model of case-insensitive hashing. -/
def strLower (s : String) : String := ⟨s.data.map Char.toLower⟩

/-- Name part of a parameter token (the text before the first equals sign). -/
def paramName (p : String) : String := ⟨p.data.takeWhile (fun c => c != '=')⟩

/-- Value part of a parameter token (the text after the first equals sign,
empty for a valueless token). -/
def paramValue (p : String) : String := ⟨(p.data.dropWhile (fun c => c != '=')).drop 1⟩

/-- Modelled from the spec: sofia url_param / msg_params_find look a named
parameter up in a parameter list and yield its value, taking the first match. -/
def paramsFind (ps : List String) (name : String) : Option String :=
  (ps.find? (fun p => paramName p == name)).map paramValue

/-- Modelled from the spec: sofia url_has_param, true when a parameter of the
given name is present. -/
def url_has_param (u : Url) (name : String) : Bool :=
  u.url_params.any (fun p => paramName p == name)

/-- Modelled from the spec: sofia url_strip_param_string removes every
parameter of the given name from a parameter string, preserving the relative
order of the retained parameters. -/
def url_strip_param_string (ps : List String) (name : String) : List String :=
  ps.filter (fun p => !(paramName p == name))

/-- Modelled from the spec: sofia url_param_add appends a raw parameter token
to the url parameter string. -/
def url_param_add (u : Url) (token : String) : Url :=
  { u with url_params := u.url_params ++ [token] }

/-- Modelled from the spec: ModuleToolbox stripParams removes from a url every
parameter whose name is in the given list, preserving the others in order
(used by removeParamsFromUrl and removeParamsFromContacts). -/
def stripParamsFromUrl (u : Url) (names : List String) : Url :=
  { u with url_params := u.url_params.filter (fun p => !(names.contains (paramName p))) }

/-- One entry of the Via chain (sip_via_t): host, port and branch parameter. -/
structure SipVia where
  v_host : Option String := none
  v_port : Option String := none
  v_branch : Option String := none
deriving DecidableEq

/-- Address header (sip_from_t / sip_to_t): url plus tag parameter. -/
structure SipAddr where
  a_url : Url
  a_tag : Option String := none
deriving DecidableEq

/-- One entry of the Route header (sip_route_t): url plus header parameters. -/
structure SipRoute where
  r_url : Url
  r_params : List String := []
deriving DecidableEq

/-- Request methods distinguished by the forwarding code. -/
inductive SipMethod where
  | invite
  | subscribe
  | register
  | other
deriving DecidableEq

/-- Request line (sip_request_t): method and request uri. -/
structure SipRequest where
  rq_method : SipMethod
  rq_url : Url
deriving DecidableEq

/-- Model of the sip_t message as read and mutated by the forwarding module.
The recordRoutes and paths counters model how many Record-Route and Path
headers the toolbox helpers have inserted. -/
structure SipMsg where
  sip_request : SipRequest
  sip_max_forwards : Option Nat := none
  sip_via : List SipVia := []
  sip_route : List SipRoute := []
  sip_from : Option SipAddr := none
  sip_to : Option SipAddr := none
  sip_call_id : Option String := none
  sip_cseq : Option Nat := none
  sip_contact : List Url := []
  recordRoutes : Nat := 0
  paths : Nat := 0
deriving DecidableEq

/-- Outgoing transaction handle: the dispatcher only reads its branch id. -/
structure OutgoingTransaction where
  branchId : String
deriving DecidableEq

/-- Transport handle; userData models tport_get_user_data, with 0 standing
for the NULL user data pointer. -/
structure Tport where
  userData : Nat := 0
deriving DecidableEq

/-- Modelled from the spec: the Agent collaborator exposes the unique proxy
instance id, the server string, and the two self-identity tests isUs(uri) and
isUs(uri, true) (strict port match). -/
structure Agent where
  uniqueId : String
  serverString : String := ""
  isUs : Url → Bool
  isUsStrict : Url → Bool

/-- Configuration of the Forward module after onLoad: static route, the
rewrite-req-uri and add-path flags, the processed default-transport text and
the parameter names to strip. -/
structure ForwardConfig where
  mOutRoute : Option SipRoute := none
  mRewriteReqUri : Bool := false
  mAddPath : Bool := false
  mDefaultTransport : String := ""
  mParamsToRemove : List String := []

/-- Processing of the default-transport configuration string performed by
onLoad: the value udp is cleared, any other value t becomes the raw parameter
token transport=t. -/
def processDefaultTransport (s : String) : String :=
  if s = "udp" then "" else "transport=" ++ s

/-- Environment bundling the module configuration with its collaborators:
agent, /etc/hosts resolver, transport registry lookup (combining
tport_name_by_url and tport_by_name, none covering either failure), and the
outgoing transaction that createOutgoingTransaction would produce. -/
structure ForwardEnv where
  agent : Agent
  cfg : ForwardConfig
  etcHosts : String → Option String
  findTport : Url → Option Tport
  newOutgoingTr : OutgoingTransaction

/-- Request event state: the message plus the per-event flags the dispatcher
reads (mRecordRouteAdded, the outgoing agent, transactions). -/
structure RequestSipEvent where
  msg : SipMsg
  mRecordRouteAdded : Bool := false
  hasOutgoingAgent : Bool := true
  hasIncomingTransaction : Bool := false
  outgoingTransaction : Option OutgoingTransaction := none

/-- The countVia helper: number of entries of the Via chain. -/
def countVia (m : SipMsg) : Nat := m.sip_via.length

/-- The isLooping helper: scans the Via chain for an entry whose branch
parameter is present and equal to the given branch text. -/
def isLooping (m : SipMsg) (branch : String) : Bool :=
  m.sip_via.any (fun v =>
    match v.v_branch with
    | some b => b == branch
    | none => false)

/-- Chunks fed to the message digest, mirroring the sequence of su_md5
updates in compute_branch: zero-terminated strings, raw bytes, and canonical
urls (scheme, user, host, port; parameters excluded, as sofia url_update
does not fold them in). -/
inductive HashChunk where
  | str : String → HashChunk
  | bytes : List Nat → HashChunk
  | url : UrlType → Option String → Option String → Option String → HashChunk
deriving DecidableEq

/-- Modelled from the spec: sofia url_update hashes the canonical url
excluding its parameter string. -/
def url_update_chunk (u : Url) : HashChunk :=
  .url u.url_type u.url_user u.url_host u.url_port

/-- Big-endian four-byte encoding of a 32-bit value, mirroring htonl on the
CSeq number. -/
def u32be (c : Nat) : List Nat :=
  [c / 16777216 % 256, c / 65536 % 256, c / 256 % 256, c % 256]

/-- Joined parameter string of a url, as the raw url_params text hashed by
compute_branch. -/
def paramsJoin (ps : List String) : String := String.intercalate ";" ps

/-- Digest contribution of the request uri parameter string: hashed only
when present, because sofia url_update does not fold parameters in. -/
def rqParamsChunk (ps : List String) : List HashChunk :=
  if ps ≠ [] then [.str (paramsJoin ps)] else []

/-- Digest contribution of the Call-ID header when present. -/
def callIdChunk : Option String → List HashChunk
  | some i => [.str i]
  | none => []

/-- Digest contribution of the From header when present: its url and its
lowercased tag (su_md5_stri0update is case-insensitive and treats a missing
tag as empty). -/
def fromChunk : Option SipAddr → List HashChunk
  | some f => [url_update_chunk f.a_url, .str (strLower (f.a_tag.getD ""))]
  | none => []

/-- Digest contribution of the To header when present: its url only, the To
tag being intentionally excluded. -/
def toChunk : Option SipAddr → List HashChunk
  | some t => [url_update_chunk t.a_url]
  | none => []

/-- Digest contribution of the CSeq number when present, in network byte
order. -/
def cseqChunk : Option Nat → List HashChunk
  | some c => [.bytes (u32be (c % 4294967296))]
  | none => []

/-- Digest transcript of compute_branch for a fresh request, in the order of
the su_md5 update calls of the code: server identity, request uri and its
parameter string when non-empty, Call-ID, From url and From tag, To url,
CSeq, then every Route url in order. -/
def branchChunks (string_server : String) (sip : SipMsg) : List HashChunk :=
  [.str string_server, url_update_chunk sip.sip_request.rq_url]
  ++ rqParamsChunk sip.sip_request.rq_url.url_params
  ++ callIdChunk sip.sip_call_id
  ++ fromChunk sip.sip_from
  ++ toChunk sip.sip_to
  ++ cseqChunk sip.sip_cseq
  ++ sip.sip_route.map (fun r => url_update_chunk r.r_url)

/-- Byte stream of one digest chunk; strings are hashed with their
terminating zero byte, canonical urls through an unambiguous rendering. -/
def chunkBytes : HashChunk → List Nat
  | .str s => s.data.map Char.toNat ++ [0]
  | .bytes bs => bs
  | .url ty u h p =>
    ((match ty with
      | .sip => "sip"
      | .sips => "sips"
      | .other => "other")
     ++ ":" ++ u.getD "" ++ "@" ++ h.getD "" ++ ":" ++ p.getD "").data.map Char.toNat ++ [0]

/-- Modelled from the spec: the su_md5 digest of the external sofia library,
a compatibility fingerprint rather than a security boundary, modelled as an
executable 128-bit fingerprint of the byte stream. -/
def md5fold (bytes : List Nat) : Nat :=
  bytes.foldl (fun h b => ((h + b + 1) * 1099511628211) % 340282366920938463463374607431768211456)
    14695981039346656037

/-- Token alphabet of the base-32-like encoding of msg_random_token. -/
def tokenChars : List Char := "0123456789abcdefghijklmnopqrstuv".data

/-- Modelled from the spec: sofia msg_random_token encodes the 128-bit digest
with the base-32-like token alphabet into the 26 characters that fit the
branch buffer of compute_branch. -/
def msg_random_token (digest : Nat) : String :=
  String.mk ((List.range 26).map (fun i => tokenChars.getD (digest / 32 ^ i % 32) '0'))

/-- Size of the branch token buffer of compute_branch minus the terminating
zero: (SU_MD5_DIGEST_SIZE * 8 + 4) / 5 = 26 characters. -/
def branchBufSize : Nat := 26

/-- The compute_branch function: with no outgoing transaction, digest the
message fields and encode them as a token; with an existing outgoing
transaction, copy its branch id into the fixed 26-character buffer (strncpy
truncates longer ids). Either way the result is prefixed with branch= and
the magic cookie. -/
def compute_branch (string_server : String) (sip : SipMsg)
    (outTr : Option OutgoingTransaction) : String :=
  match outTr with
  | none =>
    "branch=z9hG4bK." ++
      msg_random_token (md5fold (((branchChunks string_server sip).map chunkBytes).flatten))
  | some tr => "branch=z9hG4bK." ++ strTake tr.branchId branchBufSize

/-- The static isUs helper on a Route entry: the fs-proxy-id header parameter
equal to the agent unique id, or the fs-proxy-id url parameter (read through
a 32-byte buffer) equal to it, or the agent general self test on the url. -/
def isUsRoute (ag : Agent) (r : SipRoute) : Bool :=
  (match paramsFind r.r_params "fs-proxy-id" with
   | some v => v == ag.uniqueId
   | none => false)
  || (match paramsFind r.r_url.url_params "fs-proxy-id" with
      | some v => strTake v 31 == ag.uniqueId
      | none => false)
  || ag.isUs r.r_url

/-- The getDestinationFromRoute helper: from the front Route entry, duplicate
its url; when a non-empty fs-received value is present, override the host
with it and strip fs-received from the original parameter string; when a
non-empty fs-rport value is present, override the port with it and strip
fs-rport, again from the original parameter string (the values are read
through 64- and 8-byte buffers). -/
def getDestinationFromRoute (sip : SipMsg) : Option Url :=
  match sip.sip_route with
  | [] => none
  | r :: _ =>
    let received : String :=
      match paramsFind r.r_url.url_params "fs-received" with
      | some v => strTake v 63
      | none => ""
    let rport : String :=
      match paramsFind r.r_url.url_params "fs-rport" with
      | some v => strTake v 7
      | none => ""
    let ret := r.r_url
    let ret := if received ≠ "" then
        { ret with url_host := some received,
                   url_params := url_strip_param_string r.r_url.url_params "fs-received" }
      else ret
    let ret := if rport ≠ "" then
        { ret with url_port := some rport,
                   url_params := url_strip_param_string r.r_url.url_params "fs-rport" }
      else ret
    some ret

/-- Reference to the working destination url_t pointer of onRequest: either
an alias of the request uri inside the message (dest = sip_request.rq_url)
or a standalone url value. -/
inductive DestRef where
  | reqUri
  | val : Url → DestRef
deriving DecidableEq

/-- Reading through the destination pointer. -/
def readDest (m : SipMsg) : DestRef → Url
  | .reqUri => m.sip_request.rq_url
  | .val u => u

/-- Writing through the destination pointer: an aliased destination mutates
the request uri of the message in place. -/
def writeDest (m : SipMsg) (d : DestRef) (f : Url → Url) : SipMsg × DestRef :=
  match d with
  | .reqUri =>
    ({ m with sip_request := { m.sip_request with rq_url := f m.sip_request.rq_url } }, .reqUri)
  | .val u => (m, .val (f u))

/-- Modelled from the spec: ModuleToolbox urlIsResolved, true when the host
is a literal IP address needing no DNS resolution. -/
def urlIsResolved (u : Url) : Bool :=
  match u.url_host with
  | some h => h ≠ "" && h.data.all (fun c => c.isDigit || c == '.' || c == ':')
  | none => false

/-- Modelled from the spec: ModuleToolbox urlViaMatch, true when some entry
of the Via chain structurally matches the host and port of the candidate. -/
def urlViaMatch (u : Url) (vias : List SipVia) : Bool :=
  vias.any (fun v => v.v_host == u.url_host && v.v_port == u.url_port)

/-- Final outcome of processing one request event. -/
inductive Outcome where
  | reply : Nat → String → Outcome
  | suspended : Url → Outcome
  | terminatedSelf : Outcome
  | terminatedRegid : Outcome
  | sent : Url → String → Option Tport → Outcome
deriving DecidableEq

/-- Whether an outcome is an actual network send. -/
def Outcome.isSent : Outcome → Bool
  | .sent _ _ _ => true
  | _ => false

/-- The overrideDest helper: when a static route is configured, skip the
override entirely (returning early, before the default-transport step) if the
Via chain already shows the route; otherwise, when the request uri is not a
resolved literal, point the destination at the static route url, optionally
copying it over the request uri; finally, when a default transport text is
configured and the destination is a plain sip url without a transport
parameter, append the configured token through the destination pointer. -/
def overrideDest (env : ForwardEnv) (m : SipMsg) (d : DestRef) : SipMsg × DestRef :=
  let step2 : SipMsg × DestRef → SipMsg × DestRef := fun md =>
    if env.cfg.mDefaultTransport ≠ ""
        ∧ (readDest md.1 md.2).url_type = .sip
        ∧ ¬ url_has_param (readDest md.1 md.2) "transport" then
      writeDest md.1 md.2 (fun u => url_param_add u env.cfg.mDefaultTransport)
    else md
  match env.cfg.mOutRoute with
  | none => step2 (m, d)
  | some outRoute =>
    if m.sip_via ≠ [] ∧ urlViaMatch outRoute.r_url m.sip_via then (m, d)
    else if ¬ urlIsResolved m.sip_request.rq_url then
      let m' := if env.cfg.mRewriteReqUri then
          { m with sip_request := { m.sip_request with rq_url := outRoute.r_url } }
        else m
      step2 (m', .val outRoute.r_url)
    else step2 (m, d)

/-- Presence of a tag on the To header, the early-dialog test of the GRUU
branch of onRequest. -/
def toTagPresent (m : SipMsg) : Bool :=
  match m.sip_to with
  | some t => t.a_tag.isSome
  | none => false

/-- The /etc/hosts override of sendRequest: when the destination host has a
static mapping, the destination becomes a duplicate url with the resolved IP
as host, so that the message itself is never modified by name resolution. -/
def resolveEtcHosts (env : ForwardEnv) (m : SipMsg) (d : DestRef) : DestRef :=
  match (readDest m d).url_host with
  | some h =>
    match env.etcHosts h with
    | some ip => DestRef.val { readDest m d with url_host := some ip }
    | none => d
  | none => d

/-- Message mutations performed by sendRequest before the final send:
conditional Record-Route insertion (only when a Record-Route was already
added earlier for this event and the method is INVITE or SUBSCRIBE),
conditional Path insertion on REGISTER, push-parameter stripping from the
contacts (except on REGISTER) and from the request uri. -/
def mutateForSend (env : ForwardEnv) (ev : RequestSipEvent) : SipMsg :=
  let m := ev.msg
  let method := m.sip_request.rq_method
  let m := if ev.mRecordRouteAdded ∧ (method = .invite ∨ method = .subscribe) then
      { m with recordRoutes := m.recordRoutes + 1 }
    else m
  let m := if env.cfg.mAddPath ∧ method = .register then
      { m with paths := m.paths + 1 }
    else m
  let m := if ev.msg.sip_contact ≠ [] ∧ method ≠ .register then
      { m with sip_contact :=
          ev.msg.sip_contact.map (fun c => stripParamsFromUrl c env.cfg.mParamsToRemove) }
    else m
  { m with sip_request :=
      { m.sip_request with
        rq_url := stripParamsFromUrl m.sip_request.rq_url env.cfg.mParamsToRemove } }

/-- Outgoing transaction selection of sendRequest: reuse the existing
outgoing transaction when there is one, else create one bound to an existing
incoming transaction, else forward without transaction. -/
def selectOutgoingTr (env : ForwardEnv) (ev : RequestSipEvent) : Option OutgoingTransaction :=
  if ev.hasOutgoingAgent then
    match ev.outgoingTransaction with
    | some tr => some tr
    | none =>
      if ev.hasIncomingTransaction then some env.newOutgoingTr else none
  else none

/-- The registration-id mismatch test of sendRequest: a transport was found,
it carries a non-null user data tag, the destination registration id is known
and the two differ. -/
def regidGuard (t : Option Tport) (destRegId : Nat) : Bool :=
  match t with
  | some tp => tp.userData ≠ 0 && destRegId ≠ 0 && tp.userData ≠ destRegId
  | none => false

/-- The sendRequest member function: /etc/hosts override on a duplicated
destination, self-forwarding guard, transport lookup with the (dead, since
destRegId is the constant 0) registration-id mismatch guard, the message
mutations of mutateForSend, automatic outgoing transaction creation, branch
computation, loop detection and the final send. -/
def sendRequest (env : ForwardEnv) (ev : RequestSipEvent) (d : DestRef) : Outcome × SipMsg :=
  let m := ev.msg
  let d := resolveEtcHosts env m d
  if ev.hasOutgoingAgent ∧ env.agent.isUsStrict (readDest m d) then (.terminatedSelf, m)
  else
    let tport : Option Tport :=
      if ev.hasOutgoingAgent then env.findTport (readDest m d) else none
    let destRegId : Nat := 0
    if regidGuard tport destRegId then (.terminatedRegid, m)
    else
      let m := mutateForSend env ev
      let branchStr := compute_branch env.agent.uniqueId m (selectOutgoingTr env ev)
      if isLooping m (strDrop branchStr 7) then (.reply 482 "Loop Detected", m)
      else (.sent (readDest m d) branchStr tport, m)

/-- Tail of onRequest from the GRUU test on: when the destination carries the
gr parameter and the To header carries a tag, suspend the event for the
registrar lookup; otherwise continue into sendRequest. -/
def dispatchResolved (env : ForwardEnv) (ev : RequestSipEvent) (m : SipMsg) (d : DestRef) :
    Outcome × SipMsg :=
  if url_has_param (readDest m d) "gr" ∧ toTagPresent m then (.suspended (readDest m d), m)
  else sendRequest env { ev with msg := m } d

/-- Route popping loop of onRequest: remove front Route entries while they
match this proxy. -/
def popRoutes (env : ForwardEnv) (m : SipMsg) : SipMsg :=
  { m with sip_route := m.sip_route.dropWhile (isUsRoute env.agent) }

/-- Destination after route popping: the next-hop derived from the remaining
front Route entry when one remains, else the request uri itself (an aliased
pointer into the message). -/
def destAfterPop (m : SipMsg) : DestRef :=
  match getDestinationFromRoute m with
  | some u => .val u
  | none => .reqUri

/-- The malformed-destination test of onRequest: not a sip or sips url, or a
missing host, or a host with an embedded at sign. -/
def badDestination (u : Url) : Bool :=
  (u.url_type ≠ .sip ∧ u.url_type ≠ .sips) ∨ u.url_host = none
  ∨ (u.url_host.getD "").data.contains '@'

/-- The regid stripping step of onRequest: when the destination carries a
regid parameter, strip it through the destination pointer so that it never
goes out to the network. -/
def stripRegid (m : SipMsg) (d : DestRef) : SipMsg × DestRef :=
  if (paramsFind (readDest m d).url_params "regid").isSome then
    writeDest m d (fun u => { u with url_params := url_strip_param_string u.url_params "regid" })
  else (m, d)

/-- Message and destination once onRequest has popped the Routes, stripped
the regid hint and applied the destination overrides. -/
def resolvedMsgDest (env : ForwardEnv) (m : SipMsg) : SipMsg × DestRef :=
  let m := popRoutes env m
  let d := destAfterPop m
  let md := stripRegid m d
  overrideDest env md.1 md.2

/-- Body of onRequest after the Max-Forwards check and decrement: pop the
Route entries matching this proxy, derive the destination from the remaining
Route entry or keep the request uri, reject malformed destinations with 400,
strip the regid hint through the destination pointer, apply the destination
overrides and dispatch. -/
def onRequestAfterMf (env : ForwardEnv) (ev : RequestSipEvent) (m : SipMsg) :
    Outcome × SipMsg :=
  let m1 := popRoutes env m
  let d := destAfterPop m1
  if badDestination (readDest m1 d) then (.reply 400 "Bad Request", m1)
  else
    let md := resolvedMsgDest env m
    dispatchResolved env ev md.1 md.2

/-- The onRequest entry point: reject with 483 Too Many Hops, before any
mutation, a request whose Max-Forwards count does not exceed the Via count;
otherwise decrement Max-Forwards when present and continue. -/
def onRequest (env : ForwardEnv) (ev : RequestSipEvent) : Outcome × SipMsg :=
  match ev.msg.sip_max_forwards with
  | some mf =>
    if mf ≤ countVia ev.msg then (.reply 483 "Too Many Hops", ev.msg)
    else onRequestAfterMf env ev { ev.msg with sip_max_forwards := some (mf - 1) }
  | none => onRequestAfterMf env ev ev.msg

/-- One registrar binding as surfaced to the listener (the url of the
contact that toSofiaContact yields). -/
structure ExtendedContact where
  contactUrl : Url
deriving DecidableEq

/-- Outcome of a registrar callback: forwarding resumed with the result of
re-entering sendRequest, or a 500 Internal Server Error reply. -/
inductive CallbackOutcome where
  | resumed : Outcome × SipMsg → CallbackOutcome
  | replied500 : CallbackOutcome
deriving DecidableEq

/-- The RegistrarListener onRecordFound callback: a missing record or a
record with other than exactly one extended contact replies 500; with exactly
one contact the request uri is overwritten with a copy of the contact url,
the gr parameter is stripped from it, the regid parameter is stripped when
present, and forwarding resumes through sendRequest with the contact url as
destination. -/
def onRecordFound (env : ForwardEnv) (ev : RequestSipEvent) :
    Option (List ExtendedContact) → CallbackOutcome
  | none => .replied500
  | some contacts =>
    match contacts with
    | [c] =>
      let dest := c.contactUrl
      let m := ev.msg
      let m := { m with sip_request := { m.sip_request with rq_url := dest } }
      let m := { m with sip_request := { m.sip_request with rq_url :=
          { m.sip_request.rq_url with
            url_params := url_strip_param_string m.sip_request.rq_url.url_params "gr" } } }
      let m := if url_has_param m.sip_request.rq_url "regid" then
          { m with sip_request := { m.sip_request with rq_url :=
              { m.sip_request.rq_url with
                url_params := url_strip_param_string m.sip_request.rq_url.url_params "regid" } } }
        else m
      .resumed (sendRequest env { ev with msg := m } (.val dest))
    | _ => .replied500

/-- The RegistrarListener onError and onInvalid callbacks: reply 500. -/
def onRegistrarFailure : CallbackOutcome := .replied500

/-- Test agent for which no url is the proxy itself. -/
def testAgent : Agent :=
  { uniqueId := "proxy1", serverString := "flexisip", isUs := fun _ => false,
    isUsStrict := fun _ => false }

/-- Test environment with the default (all-empty) configuration. -/
def testEnv : ForwardEnv :=
  { agent := testAgent, cfg := {}, etcHosts := fun _ => none, findTport := fun _ => none,
    newOutgoingTr := ⟨"newtr0"⟩ }

/-- Simple sip url used as a request uri in the test fixtures. -/
def urlA : Url := { url_type := .sip, url_user := some "alice", url_host := some "a.example.org" }

/-- Transaction branch id of 27 characters, one more than the branch buffer
of compute_branch can hold. -/
def longBranchId : String := "abcdefghijklmnopqrstuvwxyz0"

/-- Minimal message fixture for the branch computation claims. -/
def msgC2 : SipMsg := { sip_request := ⟨.invite, urlA⟩ }

/-- Route entry carrying both NAT marker parameters at once. -/
def routeC6 : SipRoute :=
  { r_url := { url_type := .sip, url_host := some "nat.example.org", url_port := some "5060",
               url_params := ["fs-received=1.2.3.4", "fs-rport=5678", "lr"] } }

/-- Message whose front Route entry carries both fs-received and fs-rport. -/
def msgC6 : SipMsg := { sip_request := ⟨.invite, urlA⟩, sip_route := [routeC6] }

/-- Request uri produced by a successful GRUU resolution: the contact url
with the gr parameter stripped and the regid parameter stripped. -/
def gruuRewrittenUrl (c : ExtendedContact) : Url :=
  { c.contactUrl with url_params :=
      url_strip_param_string (url_strip_param_string c.contactUrl.url_params "gr") "regid" }

/-- Event state after a successful GRUU resolution: the request uri rewritten
to the stripped contact url, everything else untouched. -/
def gruuRewrittenEvent (ev : RequestSipEvent) (c : ExtendedContact) : RequestSipEvent :=
  { ev with msg := { ev.msg with sip_request :=
      { ev.msg.sip_request with rq_url := gruuRewrittenUrl c } } }

/-- Via entry of a previous hop, used by the Max-Forwards fixtures. -/
def viaW : SipVia := { v_host := some "client.example.org", v_branch := some "z9hG4bK.cli" }

/-- Request with Max-Forwards 1 and one Via entry: to be rejected 483. -/
def evW1 : RequestSipEvent :=
  { msg := { sip_request := ⟨.invite, urlA⟩, sip_max_forwards := some 1, sip_via := [viaW] } }

/-- Request with Max-Forwards 70 and one Via entry: to be forwarded. -/
def evW1b : RequestSipEvent :=
  { msg := { sip_request := ⟨.invite, urlA⟩, sip_max_forwards := some 70, sip_via := [viaW] } }

/-- GRUU destination: a sip uri carrying the gr parameter. -/
def urlGr : Url :=
  { url_type := .sip, url_user := some "bob", url_host := some "203.0.113.5",
    url_params := ["gr=xyz"] }

/-- Message whose request uri carries gr and whose To header carries a tag. -/
def msgC3 : SipMsg :=
  { sip_request := ⟨.invite, urlGr⟩, sip_to := some ⟨urlA, some "totag"⟩ }

/-- Event fixture for the GRUU resolution claim. -/
def evC3 : RequestSipEvent := { msg := msgC3 }

/-- Registrar binding returned for the GRUU fixture. -/
def contactC3 : ExtendedContact :=
  ⟨{ url_type := .sip, url_user := some "bob", url_host := some "192.0.2.9",
     url_port := some "5070", url_params := ["gr=xyz", "regid=7"] }⟩

/-- Destination fixture for the Record-Route claim. -/
def destC4 : Url := { url_type := .sip, url_host := some "next.example.org" }

/-- INVITE event without a previously added Record-Route, forwarded through
an existing outgoing transaction. -/
def evC4 : RequestSipEvent :=
  { msg := { sip_request := ⟨.invite, urlA⟩ }, mRecordRouteAdded := false,
    outgoingTransaction := some ⟨"b1"⟩ }

/-- INVITE event with a previously added Record-Route. -/
def evC4w : RequestSipEvent := { evC4 with mRecordRouteAdded := true }

/-- Destination carrying a regid registration-id hint. -/
def urlRegid : Url :=
  { url_type := .sip, url_user := some "bob", url_host := some "ua.example.org",
    url_params := ["regid=4"] }

/-- Environment whose transport registry finds a transport bound to the
registration id 5 for every destination. -/
def envC5 : ForwardEnv := { testEnv with findTport := fun _ => some ⟨5⟩ }

/-- Request whose request uri carries the regid hint 4. -/
def evC5 : RequestSipEvent :=
  { msg := { sip_request := ⟨.invite, urlRegid⟩ }, outgoingTransaction := some ⟨"b5"⟩ }

/-- Plain sip destination without a transport parameter. -/
def destC9 : Url := { url_type := .sip, url_host := some "gw.example.org" }

/-- Message fixture for the default-transport claim. -/
def msgC9 : SipMsg := { sip_request := ⟨.invite, destC9⟩ }

/-- Environment loaded with the default configuration value udp for
default-transport: onLoad clears it. -/
def envC9 : ForwardEnv :=
  { testEnv with cfg := { mDefaultTransport := processDefaultTransport "udp" } }

/-- Environment loaded with default-transport tcp. -/
def envC9b : ForwardEnv :=
  { testEnv with cfg := { mDefaultTransport := processDefaultTransport "tcp" } }

/-- Contact url carrying a push parameter. -/
def contactC10 : Url :=
  { url_type := .sip, url_host := some "ua.example.org", url_params := ["pn-tok=abc"] }

/-- Environment configured to strip the pn-tok push parameter. -/
def envC10 : ForwardEnv := { testEnv with cfg := { mParamsToRemove := ["pn-tok"] } }

/-- REGISTER event that will be rejected 482: its transaction branch id is
already present in the Via chain, and its contact carries a push parameter. -/
def evC10 : RequestSipEvent :=
  { msg := { sip_request := ⟨.register, urlA⟩, sip_max_forwards := some 70,
             sip_via := [{ v_host := some "client.example.org", v_branch := some "z9hG4bK.lp" }],
             sip_contact := [contactC10] },
    outgoingTransaction := some ⟨"lp"⟩ }

/-- INVITE event that will be rejected 482, with a contact carrying a push
parameter and a request uri carrying one too. -/
def evW10 : RequestSipEvent :=
  { msg := { sip_request := ⟨.invite, { urlA with url_params := ["pn-tok=xyz"] }⟩,
             sip_max_forwards := some 70,
             sip_via := [{ v_host := some "client.example.org", v_branch := some "z9hG4bK.lp" }],
             sip_contact := [contactC10] },
    outgoingTransaction := some ⟨"lp"⟩ }

/-- Messages for the branch determinism claim: equal on every hashed field,
different in Via chain, Max-Forwards, To tag and contacts. -/
def msgC8a : SipMsg :=
  { sip_request := ⟨.invite, urlGr⟩, sip_call_id := some "cid42", sip_cseq := some 20,
    sip_from := some ⟨urlA, some "ftag"⟩, sip_to := some ⟨urlRegid, none⟩,
    sip_route := [routeC6], sip_via := [viaW], sip_max_forwards := some 70 }

/-- Second message of the determinism pair. -/
def msgC8b : SipMsg :=
  { sip_request := ⟨.invite, urlGr⟩, sip_call_id := some "cid42", sip_cseq := some 20,
    sip_from := some ⟨urlA, some "ftag"⟩, sip_to := some ⟨urlRegid, some "totag"⟩,
    sip_route := [{ routeC6 with r_params := ["hdr=1"] }], sip_via := [],
    sip_max_forwards := some 5, sip_contact := [contactC10] }

end ForwardModule

namespace ForwardModule

/-- Auxiliary: the Via branch test of isLooping holds exactly for a present,
equal branch value. -/
theorem via_branch_match (o : Option String) (b : String) :
    (match o with
     | some x => x == b
     | none => false) = true ↔ o = some b := by
  cases o <;> simp

/-- C2 (amended): with an existing outgoing transaction, compute_branch
returns that transaction branch id truncated to the 26-character token
buffer, prefixed with branch= and the magic cookie, independent of the
server identity and of the whole message content. -/
theorem c2_transaction_branch_reuse (server server' : String) (sip sip' : SipMsg)
    (tr : OutgoingTransaction) :
    compute_branch server sip (some tr) = "branch=z9hG4bK." ++ strTake tr.branchId branchBufSize
    ∧ compute_branch server sip (some tr) = compute_branch server' sip' (some tr) :=
  ⟨rfl, rfl⟩

set_option maxRecDepth 4096 in
/-- C2 counterexample: a transaction branch id of 27 characters is not
returned verbatim after the cookie; the copy is truncated by the fixed-size
branch buffer. -/
theorem c2_counterexample :
    compute_branch "proxy1" msgC2 (some ⟨longBranchId⟩) ≠ "branch=z9hG4bK." ++ longBranchId := by
  decide

/-- C7: isLooping is true exactly when some Via entry carries a branch equal
to the given branch under exact string comparison; a branch value not present
verbatim yields false. -/
theorem c7_isLooping_iff (m : SipMsg) (b : String) :
    isLooping m b = true ↔ ∃ v ∈ m.sip_via, v.v_branch = some b := by
  simp only [isLooping, List.any_eq_true, via_branch_match]

/-- C6 evaluation: with both fs-received and fs-rport present on the front
Route entry, getDestinationFromRoute overrides host and port but leaves the
fs-received marker in the derived parameter string, because the second strip
starts again from the original Route parameters. -/
theorem c6_both_markers_evaluation :
    getDestinationFromRoute msgC6 =
      some { url_type := .sip, url_host := some "1.2.3.4", url_port := some "5678",
             url_params := ["fs-received=1.2.3.4", "lr"] }
    ∧ url_has_param ((getDestinationFromRoute msgC6).getD ⟨.sip, none, none, none, []⟩)
        "fs-received" = true :=
  ⟨rfl, rfl⟩

/-- Auxiliary: parameters stripped by stripParamsFromUrl are absent from the
result. -/
theorem paramsFind_strip_absent (u : Url) (names : List String) (p : String)
    (hp : p ∈ names) :
    paramsFind (stripParamsFromUrl u names).url_params p = none := by
  have h : List.find? (fun q => paramName q == p)
      (List.filter (fun q => !names.contains (paramName q)) u.url_params) = none := by
    rw [List.find?_eq_none]
    intro x hx
    rcases List.mem_filter.1 hx with ⟨-, hkeep⟩
    intro heq
    replace heq : paramName x = p := by simpa using heq
    replace hkeep : paramName x ∉ names := by simpa using hkeep
    exact hkeep (heq ▸ hp)
  simp only [stripParamsFromUrl, paramsFind]
  rw [h]
  rfl

/-- Auxiliary: writing through the destination pointer never touches the
Max-Forwards, Route, method or contact fields of the message. -/
theorem writeDest_preserves (m : SipMsg) (d : DestRef) (f : Url → Url) :
    ((writeDest m d f).1).sip_max_forwards = m.sip_max_forwards
    ∧ ((writeDest m d f).1).sip_route = m.sip_route
    ∧ ((writeDest m d f).1).sip_request.rq_method = m.sip_request.rq_method
    ∧ ((writeDest m d f).1).sip_contact = m.sip_contact := by
  cases d <;> exact ⟨rfl, rfl, rfl, rfl⟩

/-- Auxiliary: the regid stripping step never touches the Max-Forwards,
Route, method or contact fields. -/
theorem stripRegid_preserves (m : SipMsg) (d : DestRef) :
    ((stripRegid m d).1).sip_max_forwards = m.sip_max_forwards
    ∧ ((stripRegid m d).1).sip_route = m.sip_route
    ∧ ((stripRegid m d).1).sip_request.rq_method = m.sip_request.rq_method
    ∧ ((stripRegid m d).1).sip_contact = m.sip_contact := by
  unfold stripRegid
  split
  · exact writeDest_preserves m d _
  · exact ⟨rfl, rfl, rfl, rfl⟩

/-- Auxiliary: the destination override step never touches the Max-Forwards,
Route, method or contact fields of the message. -/
theorem overrideDest_preserves (env : ForwardEnv) (m : SipMsg) (d : DestRef) :
    ((overrideDest env m d).1).sip_max_forwards = m.sip_max_forwards
    ∧ ((overrideDest env m d).1).sip_route = m.sip_route
    ∧ ((overrideDest env m d).1).sip_request.rq_method = m.sip_request.rq_method
    ∧ ((overrideDest env m d).1).sip_contact = m.sip_contact := by
  simp only [overrideDest]
  split
  · split
    · exact writeDest_preserves m d _
    · exact ⟨rfl, rfl, rfl, rfl⟩
  · split
    · exact ⟨rfl, rfl, rfl, rfl⟩
    · split
      · split
        · split
          · exact writeDest_preserves _ _ _
          · exact ⟨rfl, rfl, rfl, rfl⟩
        · split
          · exact writeDest_preserves _ _ _
          · exact ⟨rfl, rfl, rfl, rfl⟩
      · split
        · exact writeDest_preserves m d _
        · exact ⟨rfl, rfl, rfl, rfl⟩

/-- Auxiliary: the pre-send mutations never touch Max-Forwards, Route or the
method. -/
theorem mutateForSend_preserves (env : ForwardEnv) (ev : RequestSipEvent) :
    (mutateForSend env ev).sip_max_forwards = ev.msg.sip_max_forwards
    ∧ (mutateForSend env ev).sip_route = ev.msg.sip_route
    ∧ (mutateForSend env ev).sip_request.rq_method = ev.msg.sip_request.rq_method := by
  simp only [mutateForSend]
  split <;> split <;> split <;> exact ⟨rfl, rfl, rfl⟩

/-- Auxiliary: the registration-id mismatch guard of sendRequest always
evaluates to false when the destination registration id is 0, as it is on
every call since the parsed registration id is never propagated. -/
theorem regidGuard_zero (t : Option Tport) : regidGuard t 0 = false := by
  cases t <;> simp [regidGuard]

/-- Auxiliary: a sendRequest run either stops at the self-forwarding guard
with the message untouched, or (the registration-id guard being dead) goes on
to the loop check with the message mutated by mutateForSend. -/
theorem sendRequest_cases (env : ForwardEnv) (ev : RequestSipEvent) (d : DestRef) :
    ((sendRequest env ev d).1 = Outcome.terminatedSelf ∧ (sendRequest env ev d).2 = ev.msg)
    ∨ ((sendRequest env ev d).1 ≠ Outcome.terminatedSelf
        ∧ (sendRequest env ev d).2 = mutateForSend env ev) := by
  simp only [sendRequest, regidGuard_zero]
  split
  · exact Or.inl ⟨rfl, rfl⟩
  · split
    · rename_i hft
      exact absurd hft (by simp)
    · split
      · exact Or.inr ⟨by simp, rfl⟩
      · exact Or.inr ⟨by simp, rfl⟩

/-- Auxiliary: the dispatch tail never touches the Max-Forwards, Route or
method fields of the message it is given. -/
theorem dispatchResolved_snd_preserves (env : ForwardEnv) (ev : RequestSipEvent)
    (m : SipMsg) (d : DestRef) :
    ((dispatchResolved env ev m d).2).sip_max_forwards = m.sip_max_forwards
    ∧ ((dispatchResolved env ev m d).2).sip_route = m.sip_route
    ∧ ((dispatchResolved env ev m d).2).sip_request.rq_method = m.sip_request.rq_method := by
  simp only [dispatchResolved]
  split
  · exact ⟨rfl, rfl, rfl⟩
  · rcases sendRequest_cases env { ev with msg := m } d with ⟨-, h⟩ | ⟨-, h⟩ <;> rw [h]
    · exact ⟨rfl, rfl, rfl⟩
    · exact mutateForSend_preserves env { ev with msg := m }

/-- Auxiliary: route popping, regid stripping and destination overriding
never touch the Max-Forwards, method or contact fields, and set the Route
header to the popped one. -/
theorem resolvedMsgDest_preserves (env : ForwardEnv) (m : SipMsg) :
    ((resolvedMsgDest env m).1).sip_max_forwards = m.sip_max_forwards
    ∧ ((resolvedMsgDest env m).1).sip_route = m.sip_route.dropWhile (isUsRoute env.agent)
    ∧ ((resolvedMsgDest env m).1).sip_request.rq_method = m.sip_request.rq_method
    ∧ ((resolvedMsgDest env m).1).sip_contact = m.sip_contact := by
  simp only [resolvedMsgDest]
  refine ⟨?_, ?_, ?_, ?_⟩
  · rw [(overrideDest_preserves env _ _).1, (stripRegid_preserves _ _).1]
    rfl
  · rw [(overrideDest_preserves env _ _).2.1, (stripRegid_preserves _ _).2.1]
    rfl
  · rw [(overrideDest_preserves env _ _).2.2.1, (stripRegid_preserves _ _).2.2.1]
    rfl
  · rw [(overrideDest_preserves env _ _).2.2.2, (stripRegid_preserves _ _).2.2.2]
    rfl

/-- Auxiliary: after the Max-Forwards step, onRequest leaves Max-Forwards and
the method unchanged, and the Route header is exactly the incoming one with
the self-matching front entries popped. -/
theorem onRequestAfterMf_snd_preserves (env : ForwardEnv) (ev : RequestSipEvent) (m : SipMsg) :
    ((onRequestAfterMf env ev m).2).sip_max_forwards = m.sip_max_forwards
    ∧ ((onRequestAfterMf env ev m).2).sip_route = m.sip_route.dropWhile (isUsRoute env.agent)
    ∧ ((onRequestAfterMf env ev m).2).sip_request.rq_method = m.sip_request.rq_method := by
  simp only [onRequestAfterMf]
  split
  · exact ⟨rfl, rfl, rfl⟩
  · refine ⟨?_, ?_, ?_⟩
    · rw [(dispatchResolved_snd_preserves env ev _ _).1,
        (resolvedMsgDest_preserves env m).1]
    · rw [(dispatchResolved_snd_preserves env ev _ _).2.1,
        (resolvedMsgDest_preserves env m).2.1]
    · rw [(dispatchResolved_snd_preserves env ev _ _).2.2,
        (resolvedMsgDest_preserves env m).2.2.1]

/-- C1: a request whose Max-Forwards count does not exceed the Via count is
rejected with exactly a 483 Too Many Hops reply and the message completely
unmutated; a request passing the check with Max-Forwards present has its
count decremented exactly once, whatever path processing then takes. -/
theorem c1_max_forwards (env : ForwardEnv) (ev : RequestSipEvent) (mf : Nat)
    (hmf : ev.msg.sip_max_forwards = some mf) :
    (mf ≤ countVia ev.msg → onRequest env ev = (.reply 483 "Too Many Hops", ev.msg))
    ∧ (countVia ev.msg < mf →
        ((onRequest env ev).2).sip_max_forwards = some (mf - 1)) := by
  constructor
  · intro hle
    unfold onRequest
    split
    · rename_i mf' heq
      rw [hmf] at heq
      injection heq with heq'
      subst heq'
      rw [if_pos hle]
    · rename_i heq
      rw [hmf] at heq
      exact Option.noConfusion heq
  · intro hlt
    unfold onRequest
    split
    · rename_i mf' heq
      rw [hmf] at heq
      injection heq with heq'
      subst heq'
      rw [if_neg (Nat.not_le.2 hlt)]
      rw [(onRequestAfterMf_snd_preserves env ev _).1]
    · rename_i heq
      rw [hmf] at heq
      exact Option.noConfusion heq

/-- C1 witness: a request with Max-Forwards 1 over one Via entry is rejected
483 with the message unchanged; one with Max-Forwards 70 over one Via entry
ends with Max-Forwards 69. -/
theorem c1_witness :
    onRequest testEnv evW1 = (.reply 483 "Too Many Hops", evW1.msg)
    ∧ ((onRequest testEnv evW1b).2).sip_max_forwards = some 69 :=
  ⟨(c1_max_forwards testEnv evW1 1 rfl).1 (by decide),
   (c1_max_forwards testEnv evW1b 70 rfl).2 (by decide)⟩

/-- C5 (amended): the registration-id mismatch guard of sendRequest is dead
code; no run of sendRequest ever terminates processing for a pinned-transport
registration-id mismatch, because the destination registration id variable is
the constant 0. -/
theorem c5_no_regid_abort (env : ForwardEnv) (ev : RequestSipEvent) (d : DestRef) :
    (sendRequest env ev d).1 ≠ Outcome.terminatedRegid := by
  simp only [sendRequest, regidGuard_zero]
  split
  · simp
  · split
    · simp_all
    · split <;> simp

/-- C5 counterexample: a request whose request uri carries the hint regid=4
while the only available transport is bound to registration id 5 is not
dropped: processing ends in an actual send over that transport. -/
theorem c5_counterexample :
    paramsFind evC5.msg.sip_request.rq_url.url_params "regid" = some "4"
    ∧ envC5.findTport { urlRegid with url_params := [] } = some ⟨5⟩
    ∧ (onRequest envC5 evC5).1
        = Outcome.sent { urlRegid with url_params := [] } "branch=z9hG4bK.b5" (some ⟨5⟩) :=
  ⟨rfl, rfl, rfl⟩

/-- Auxiliary: the Record-Route counter after the pre-send mutations is
incremented exactly when a Record-Route was already added earlier and the
method is INVITE or SUBSCRIBE. -/
theorem mutateForSend_recordRoutes (env : ForwardEnv) (ev : RequestSipEvent) :
    (mutateForSend env ev).recordRoutes =
      if ev.mRecordRouteAdded
          ∧ (ev.msg.sip_request.rq_method = .invite ∨ ev.msg.sip_request.rq_method = .subscribe)
        then ev.msg.recordRoutes + 1 else ev.msg.recordRoutes := by
  simp only [mutateForSend]
  by_cases hc : ev.mRecordRouteAdded = true
      ∧ (ev.msg.sip_request.rq_method = .invite ∨ ev.msg.sip_request.rq_method = .subscribe)
  · rw [if_pos hc, if_pos hc]
    split <;> split <;> rfl
  · rw [if_neg hc, if_neg hc]
    split <;> split <;> rfl

/-- C4 (amended): for a forwarded INVITE or SUBSCRIBE that is not stopped by
the self-forwarding guard, a further Record-Route is added exactly when one
was already added earlier in the pipeline for this event (the flag is true);
when the flag is false no Record-Route is added. -/
theorem c4_record_route (env : ForwardEnv) (ev : RequestSipEvent) (d : DestRef)
    (h2 : ev.msg.sip_request.rq_method = .invite ∨ ev.msg.sip_request.rq_method = .subscribe)
    (h3 : (sendRequest env ev d).1 ≠ Outcome.terminatedSelf) :
    ((sendRequest env ev d).2).recordRoutes =
      if ev.mRecordRouteAdded then ev.msg.recordRoutes + 1 else ev.msg.recordRoutes := by
  rcases sendRequest_cases env ev d with ⟨h1, -⟩ | ⟨-, hsnd⟩
  · exact absurd h1 h3
  · rw [hsnd, mutateForSend_recordRoutes]
    cases ev.mRecordRouteAdded
    · rw [if_neg (fun hcc => by simp at hcc), if_neg (by simp)]
    · rw [if_pos (And.intro rfl h2), if_pos rfl]

/-- C4 witness: an INVITE forwarded with the flag already set gets a second
Record-Route. -/
theorem c4_witness :
    ((sendRequest testEnv evC4w (DestRef.val destC4)).2).recordRoutes = 1 := by
  have h := c4_record_route testEnv evC4w (DestRef.val destC4) (Or.inl rfl) (by decide)
  simpa using h

/-- C4 counterexample: an INVITE forwarded with the record-route-added flag
false is sent without any Record-Route being added. -/
theorem c4_counterexample :
    evC4.msg.sip_request.rq_method = SipMethod.invite
    ∧ evC4.mRecordRouteAdded = false
    ∧ (sendRequest testEnv evC4 (DestRef.val destC4)).1
        = Outcome.sent destC4 "branch=z9hG4bK.b1" none
    ∧ ((sendRequest testEnv evC4 (DestRef.val destC4)).2).recordRoutes = 0 :=
  ⟨rfl, rfl, rfl, rfl⟩

/-- Auxiliary: a transport parameter token is never the empty string. -/
theorem transport_token_ne_empty (t : String) : ("transport=" ++ t : String) ≠ "" := by
  intro hc
  have hlen := congrArg String.length hc
  rw [String.length_append] at hlen
  have h10 : ("transport=" : String).length = 10 := rfl
  have hz : ("" : String).length = 0 := rfl
  rw [h10, hz] at hlen
  omega

/-- C9 (amended): when the configured default transport is a value other than
udp and the destination is a plain sip url without a transport parameter (and
no static route is configured), overrideDest appends the configured
transport= token through the destination pointer; the value udp is cleared at
load time, so no parameter is appended for it. -/
theorem c9_default_transport (env : ForwardEnv) (m : SipMsg) (d : DestRef) (t : String)
    (h0 : env.cfg.mOutRoute = none)
    (h1 : env.cfg.mDefaultTransport = processDefaultTransport t)
    (h2 : t ≠ "udp")
    (h3 : (readDest m d).url_type = .sip)
    (h4 : url_has_param (readDest m d) "transport" = false) :
    overrideDest env m d = writeDest m d (fun u => url_param_add u ("transport=" ++ t)) := by
  have hpt : env.cfg.mDefaultTransport = "transport=" ++ t := by
    rw [h1, processDefaultTransport, if_neg h2]
  simp only [overrideDest, h0]
  rw [if_pos ⟨by rw [hpt]; exact transport_token_ne_empty t, h3, by rw [h4]; simp⟩]
  rw [hpt]

/-- C9 witness: with default-transport tcp, a sip destination without a
transport parameter gets transport=tcp appended. -/
theorem c9_witness :
    overrideDest envC9b msgC9 (DestRef.val destC9)
      = (msgC9, DestRef.val (url_param_add destC9 "transport=tcp")) := by
  have h := c9_default_transport envC9b msgC9 (DestRef.val destC9) "tcp" rfl rfl
    (by decide) rfl rfl
  exact h

/-- C9 counterexample: with the default configuration value udp the processed
default-transport text is empty, and a sip destination without a transport
parameter passes through overrideDest unchanged: no transport parameter
naming udp is appended. -/
theorem c9_counterexample :
    processDefaultTransport "udp" = ""
    ∧ overrideDest envC9 msgC9 (DestRef.val destC9) = (msgC9, DestRef.val destC9)
    ∧ url_has_param destC9 "transport" = false :=
  ⟨rfl, rfl, rfl⟩

/-- Auxiliary: stripping a parameter that is not present leaves the
parameter string unchanged. -/
theorem strip_noop_of_not_any (ps : List String) (name : String)
    (h : ps.any (fun p => paramName p == name) = false) :
    url_strip_param_string ps name = ps := by
  unfold url_strip_param_string
  apply List.filter_eq_self.mpr
  intro a ha
  rw [List.any_eq_false] at h
  simpa using h a ha

/-- C3: a destination carrying gr with a tagged To header suspends the event;
the registrar callback then decides everything: exactly one binding rewrites
the request uri to the contact url with gr stripped and regid stripped when
present and resumes through sendRequest; a missing record, a record with zero
or several bindings, or a lookup failure reply 500 and never resume. -/
theorem c3_gruu_resolution (env : ForwardEnv) (ev : RequestSipEvent) (m : SipMsg)
    (d : DestRef) (c : ExtendedContact) (r : List ExtendedContact) :
    (url_has_param (readDest m d) "gr" = true → toTagPresent m = true →
      dispatchResolved env ev m d = (.suspended (readDest m d), m))
    ∧ onRecordFound env ev (some [c]) =
        .resumed (sendRequest env (gruuRewrittenEvent ev c) (.val c.contactUrl))
    ∧ onRecordFound env ev none = .replied500
    ∧ (r.length ≠ 1 → onRecordFound env ev (some r) = .replied500)
    ∧ onRegistrarFailure = .replied500 := by
  refine ⟨?_, ?_, rfl, ?_, rfl⟩
  · intro h1 h2
    simp only [dispatchResolved]
    rw [if_pos ⟨h1, h2⟩]
  · simp only [onRecordFound, gruuRewrittenEvent, gruuRewrittenUrl]
    split
    · rfl
    · rename_i hno
      rw [strip_noop_of_not_any _ "regid" (by simpa [url_has_param] using hno)]
  · intro hlen
    match r with
    | [] => rfl
    | [a] => exact absurd rfl hlen
    | a :: b :: rest => rfl

/-- C3 witness: the fixture with gr and a To tag suspends; one binding
resumes with the rewritten request uri; an empty record and a two-binding
record reply 500. -/
theorem c3_witness :
    dispatchResolved testEnv evC3 msgC3 DestRef.reqUri = (.suspended urlGr, msgC3)
    ∧ onRecordFound testEnv evC3 (some [contactC3]) =
        .resumed (sendRequest testEnv (gruuRewrittenEvent evC3 contactC3)
          (.val contactC3.contactUrl))
    ∧ paramsFind (gruuRewrittenUrl contactC3).url_params "gr" = none
    ∧ (gruuRewrittenEvent evC3 contactC3).msg.sip_request.rq_url = gruuRewrittenUrl contactC3
    ∧ onRecordFound testEnv evC3 none = .replied500
    ∧ onRecordFound testEnv evC3 (some [contactC3, contactC3]) = .replied500 := by
  have h := c3_gruu_resolution testEnv evC3 msgC3 DestRef.reqUri contactC3
    [contactC3, contactC3]
  exact ⟨h.1 rfl rfl, h.2.1, rfl, rfl, h.2.2.1, h.2.2.2.1 (by decide)⟩

/-- C8: two fresh requests (no outgoing transaction) agreeing on the hashed
fields — request uri including its parameter string, Call-ID, From header
with its tag, To url, CSeq and the Route url list — receive identical branch
tokens from compute_branch, whatever their other content (Via chain,
Max-Forwards, To tag, contacts, method). -/
theorem c8_branch_determinism (server : String) (sip1 sip2 : SipMsg)
    (hru : sip1.sip_request.rq_url = sip2.sip_request.rq_url)
    (hci : sip1.sip_call_id = sip2.sip_call_id)
    (hfrom : sip1.sip_from = sip2.sip_from)
    (hto : sip1.sip_to.map SipAddr.a_url = sip2.sip_to.map SipAddr.a_url)
    (hcseq : sip1.sip_cseq = sip2.sip_cseq)
    (hroute : sip1.sip_route.map SipRoute.r_url = sip2.sip_route.map SipRoute.r_url) :
    compute_branch server sip1 none = compute_branch server sip2 none := by
  have hmap1 : sip1.sip_route.map (fun r => url_update_chunk r.r_url)
      = sip2.sip_route.map (fun r => url_update_chunk r.r_url) := by
    have e1 : sip1.sip_route.map (fun r => url_update_chunk r.r_url)
        = (sip1.sip_route.map SipRoute.r_url).map url_update_chunk := by
      rw [List.map_map]
      rfl
    have e2 : sip2.sip_route.map (fun r => url_update_chunk r.r_url)
        = (sip2.sip_route.map SipRoute.r_url).map url_update_chunk := by
      rw [List.map_map]
      rfl
    rw [e1, e2, hroute]
  have hseg : toChunk sip1.sip_to = toChunk sip2.sip_to := by
    cases h1 : sip1.sip_to <;> cases h2 : sip2.sip_to <;>
      rw [h1, h2] at hto <;> simp_all [toChunk]
  have hch : branchChunks server sip1 = branchChunks server sip2 := by
    simp only [branchChunks]
    rw [hru, hci, hfrom, hcseq, hmap1, hseg]
  simp only [compute_branch]
  rw [hch]

/-- C8 witness: the two fixture messages differ in Via chain, Max-Forwards,
To tag, contacts and Route header parameters but agree on every hashed
field, and receive the same branch. -/
theorem c8_witness :
    compute_branch "proxy1" msgC8a none = compute_branch "proxy1" msgC8b none :=
  c8_branch_determinism "proxy1" msgC8a msgC8b rfl rfl rfl rfl rfl rfl

/-- Auxiliary: the configured push parameters are absent from the request uri
after the pre-send mutations. -/
theorem mutateForSend_rq_url_stripped (env : ForwardEnv) (ev : RequestSipEvent) (p : String)
    (hp : p ∈ env.cfg.mParamsToRemove) :
    paramsFind ((mutateForSend env ev).sip_request.rq_url).url_params p = none := by
  simp only [mutateForSend]
  exact paramsFind_strip_absent _ _ _ hp

/-- Auxiliary: the contacts after the pre-send mutations are the incoming
ones, stripped of the configured parameters exactly when contacts are present
and the method is not REGISTER. -/
theorem mutateForSend_sip_contact (env : ForwardEnv) (ev : RequestSipEvent) :
    (mutateForSend env ev).sip_contact =
      if ev.msg.sip_contact ≠ [] ∧ ev.msg.sip_request.rq_method ≠ SipMethod.register then
        ev.msg.sip_contact.map (fun c => stripParamsFromUrl c env.cfg.mParamsToRemove)
      else ev.msg.sip_contact := by
  simp only [mutateForSend]
  by_cases hc : ev.msg.sip_contact ≠ [] ∧ ev.msg.sip_request.rq_method ≠ SipMethod.register
  · rw [if_pos hc, if_pos hc]
  · rw [if_neg hc, if_neg hc]
    split <;> split <;> rfl

/-- Auxiliary: on a non-REGISTER request, every contact after the pre-send
mutations is free of the configured push parameters. -/
theorem mutateForSend_contact_stripped (env : ForwardEnv) (ev : RequestSipEvent)
    (u : Url) (p : String)
    (hreg : ev.msg.sip_request.rq_method ≠ SipMethod.register)
    (hp : p ∈ env.cfg.mParamsToRemove)
    (hu : u ∈ (mutateForSend env ev).sip_contact) :
    paramsFind u.url_params p = none := by
  rw [mutateForSend_sip_contact] at hu
  by_cases hc : ev.msg.sip_contact ≠ [] ∧ ev.msg.sip_request.rq_method ≠ SipMethod.register
  · rw [if_pos hc] at hu
    obtain ⟨c, -, rfl⟩ := List.mem_map.1 hu
    exact paramsFind_strip_absent _ _ _ hp
  · rw [if_neg hc] at hu
    have hnil : ev.msg.sip_contact = [] := by
      by_contra hne
      exact hc ⟨hne, hreg⟩
    rw [hnil] at hu
    exact absurd hu (List.not_mem_nil u)

/-- Auxiliary: a sendRequest run ending in the 482 reply returns the mutated
message. -/
theorem sendRequest_482_eq (env : ForwardEnv) (ev : RequestSipEvent) (d : DestRef) (m' : SipMsg)
    (h : sendRequest env ev d = (Outcome.reply 482 "Loop Detected", m')) :
    m' = mutateForSend env ev := by
  simp only [sendRequest, regidGuard_zero] at h
  split at h
  · simp at h
  · split at h
    · simp_all
    · split at h
      · injection h with h1 h2
        exact h2.symm
      · simp at h

/-- Auxiliary: a dispatch ending in the 482 reply returns the mutated
message. -/
theorem dispatchResolved_482_eq (env : ForwardEnv) (ev : RequestSipEvent) (m : SipMsg)
    (d : DestRef) (m' : SipMsg)
    (h : dispatchResolved env ev m d = (Outcome.reply 482 "Loop Detected", m')) :
    m' = mutateForSend env { ev with msg := m } := by
  simp only [dispatchResolved] at h
  split at h
  · simp at h
  · exact sendRequest_482_eq _ _ _ _ h

/-- Auxiliary: a run of the post-Max-Forwards body ending in 482 has popped
the self Routes, kept Max-Forwards and stripped the configured parameters
from the request uri and (outside REGISTER) from the contacts. -/
theorem onRequestAfterMf_482 (env : ForwardEnv) (ev : RequestSipEvent) (m m' : SipMsg)
    (h : onRequestAfterMf env ev m = (Outcome.reply 482 "Loop Detected", m')) :
    m'.sip_max_forwards = m.sip_max_forwards
    ∧ m'.sip_route = m.sip_route.dropWhile (isUsRoute env.agent)
    ∧ (∀ p ∈ env.cfg.mParamsToRemove, paramsFind m'.sip_request.rq_url.url_params p = none)
    ∧ (m.sip_request.rq_method ≠ SipMethod.register →
        ∀ u ∈ m'.sip_contact, ∀ p ∈ env.cfg.mParamsToRemove,
          paramsFind u.url_params p = none) := by
  have hm2 : m' = (onRequestAfterMf env ev m).2 := by rw [h]
  obtain ⟨p1, p2, -⟩ := onRequestAfterMf_snd_preserves env ev m
  have hMm : m' = mutateForSend env { ev with msg := (resolvedMsgDest env m).1 } := by
    simp only [onRequestAfterMf] at h
    split at h
    · simp at h
    · exact dispatchResolved_482_eq _ _ _ _ _ h
  refine ⟨hm2 ▸ p1, hm2 ▸ p2, ?_, ?_⟩
  · intro p hp
    rw [hMm]
    exact mutateForSend_rq_url_stripped _ _ _ hp
  · intro hreg u hu p hp
    rw [hMm] at hu
    refine mutateForSend_contact_stripped _ _ u p (fun hr => hreg ?_) hp hu
    exact ((resolvedMsgDest_preserves env m).2.2.1).symm.trans hr

/-- C10 (amended): a 482 Loop Detected rejection happens only after the
message has been mutated, and the mutations persist: Max-Forwards has been
decremented, the self-matching Route entries popped, the configured push
parameters stripped from the request uri and — except on REGISTER, where
contacts are deliberately preserved — from the contact uris. -/
theorem c10_loop_rejected_after_mutation (env : ForwardEnv) (ev : RequestSipEvent) (m' : SipMsg)
    (h : onRequest env ev = (Outcome.reply 482 "Loop Detected", m')) :
    m'.sip_max_forwards = ev.msg.sip_max_forwards.map (fun n => n - 1)
    ∧ m'.sip_route = ev.msg.sip_route.dropWhile (isUsRoute env.agent)
    ∧ (∀ p ∈ env.cfg.mParamsToRemove, paramsFind m'.sip_request.rq_url.url_params p = none)
    ∧ (ev.msg.sip_request.rq_method ≠ SipMethod.register →
        ∀ u ∈ m'.sip_contact, ∀ p ∈ env.cfg.mParamsToRemove,
          paramsFind u.url_params p = none) := by
  unfold onRequest at h
  split at h
  · rename_i mf heq
    split at h
    · simp at h
    · obtain ⟨q1, q2, q3, q4⟩ := onRequestAfterMf_482 env ev _ m' h
      rw [heq]
      exact ⟨q1, q2, q3, q4⟩
  · rename_i heq
    obtain ⟨q1, q2, q3, q4⟩ := onRequestAfterMf_482 env ev _ m' h
    rw [heq] at q1 ⊢
    exact ⟨q1, q2, q3, q4⟩

/-- C10 witness: an INVITE rejected 482 comes out with Max-Forwards
decremented to 69 and the push parameter gone from its request uri. -/
theorem c10_witness :
    ((onRequest envC10 evW10).2).sip_max_forwards = some 69
    ∧ paramsFind (((onRequest envC10 evW10).2).sip_request.rq_url).url_params "pn-tok" = none := by
  have h := c10_loop_rejected_after_mutation envC10 evW10 ((onRequest envC10 evW10).2) rfl
  exact ⟨by simpa using h.1, h.2.2.1 "pn-tok" (by decide)⟩

/-- C10 counterexample: a REGISTER rejected 482 keeps the configured push
parameter on its contact uri, so the claim that the push parameters have
been stripped from the Contact uris fails on REGISTER. -/
theorem c10_counterexample :
    (onRequest envC10 evC10).1 = Outcome.reply 482 "Loop Detected"
    ∧ "pn-tok" ∈ envC10.cfg.mParamsToRemove
    ∧ ((onRequest envC10 evC10).2).sip_contact = [contactC10]
    ∧ url_has_param contactC10 "pn-tok" = true := by
  refine ⟨rfl, by decide, rfl, rfl⟩

end ForwardModule
